import Mathlib

/-!
Shallow embedding of the decorator library (src/decorators.py, src/mylog.py,
src/mynumber.py): the Call Logger (`logged`), the Bounded Result Clamp
(`bounded`), the Signature Validator (`strictly_typed`) and the Coroutine
Primer (`coroutine`), together with proofs of the specified behavior.

Python values are embedded as an inductive `PyVal` covering the runtime types
that the claims exercise; exceptions are `PyErr` (a type name plus a message),
and fallible Python code is embedded as `Except PyErr`.
-/

/-- Runtime type objects, as used in annotations and by `isinstance`. -/
inductive PyType where
  | int
  | str
  | bool
  | noneType
deriving DecidableEq

/-- Runtime values of the embedded Python fragment. -/
inductive PyVal where
  | vInt (n : Int)
  | vStr (s : String)
  | vBool (b : Bool)
  | vNone
deriving DecidableEq

/-- A raised Python exception: its type's name and its message (`str(e)`). -/
structure PyErr where
  ty : String
  msg : String
deriving DecidableEq

/-- `type(v)` for an embedded value. -/
def PyVal.typeOf : PyVal → PyType
  | .vInt _ => .int
  | .vStr _ => .str
  | .vBool _ => .bool
  | .vNone => .noneType

/-- The debug string of a type object, e.g. `<class \x27int\x27>`. -/
def PyType.reprStr : PyType → String
  | .int => "<class \x27int\x27>"
  | .str => "<class \x27str\x27>"
  | .bool => "<class \x27bool\x27>"
  | .noneType => "<class \x27NoneType\x27>"

/-- Python `isinstance(v, t)`, including the `bool` subclass-of-`int` rule. -/
def isinstance : PyVal → PyType → Bool
  | .vInt _, .int => true
  | .vStr _, .str => true
  | .vBool _, .bool => true
  | .vBool _, .int => true
  | .vNone, .noneType => true
  | _, _ => false

/-- `repr(v)` for the embedded values (simple strings, no escaping needed). -/
def pyRepr : PyVal → String
  | .vInt n => toString n
  | .vStr s => "\x27" ++ s ++ "\x27"
  | .vBool b => if b then "True" else "False"
  | .vNone => "None"

/-- `str(v)` for the embedded values (differs from `repr` only on strings). -/
def pyStr : PyVal → String
  | .vStr s => s
  | v => pyRepr v

/-! ## Bounded Result Clamp (`bounded` in src/mynumber.py and src/decorators.py)

`bounded(minimum, maximum)` wraps `function`; the wrapper computes
`result = function(*args, **kwargs)` and clamps it into the interval.
The numeric result is embedded over an arbitrary linear order. -/

/-- The `bounded(minimum, maximum)` decorator applied to `function`:
per call, if the result is below `minimum` return `minimum`, else if it is
above `maximum` return `maximum`, else return the result unchanged. -/
def bounded {α : Type} [LinearOrder α] {ι : Type} (minimum maximum : α)
    (function : ι → α) : ι → α :=
  fun x =>
    let result := function x
    if result < minimum then minimum
    else if result > maximum then maximum
    else result

/-! ## Call Logger (`logged` in src/decorators.py and src/mylog.py)

`logged(file=None, level=debug)` configures the process-wide channel
`logging.getLogger(\x27Logger\x27)` at decoration time (threshold, propagate,
replace all handlers with one `FileHandler`), and wraps `function` so that
each call appends one formatted line and passes the outcome through.

The logging subsystem is embedded as `LoggerState` (numeric threshold and
the list of handler destinations); emitting at a severity writes the line
to every handler whose channel threshold allows it. The lookup
`getattr(logging, NAME)` of the module's level constants is
`loggingLevelAttr`, and `getattr(logger, name)` restricted to the
level-emission methods of a `logging.Logger` is `loggerMethodSeverity`
(returning the severity the method emits at; `none` models the
`AttributeError` raised for a name that is no such method). -/

/-- The recognized level names in `logged` (its local `levels` set). -/
def levelNames : List String := ["debug", "info", "warning", "error", "fatal"]

/-- Python `str.lower()` (per-character, as the ASCII level names use it). -/
def strLower (s : String) : String := ⟨s.data.map Char.toLower⟩

/-- Python `str.upper()` (per-character, as the ASCII level names use it). -/
def strUpper (s : String) : String := ⟨s.data.map Char.toUpper⟩

/-- Numeric level constants of the `logging` module, by attribute name. -/
def loggingLevelAttr : String → Option Nat
  | "CRITICAL" => some 50
  | "FATAL" => some 50
  | "ERROR" => some 40
  | "WARNING" => some 30
  | "WARN" => some 30
  | "INFO" => some 20
  | "DEBUG" => some 10
  | "NOTSET" => some 0
  | _ => none

/-- The level-emission methods of a `logging.Logger` and the severity each
emits at; `none` for a name that is not such a method (an `AttributeError`
when looked up for emission). -/
def loggerMethodSeverity : String → Option Nat
  | "debug" => some 10
  | "info" => some 20
  | "warning" => some 30
  | "warn" => some 30
  | "error" => some 40
  | "exception" => some 40
  | "critical" => some 50
  | "fatal" => some 50
  | _ => none

/-- The state of the shared channel `logging.getLogger(\x27Logger\x27)`:
its numeric threshold, its handlers (each a destination path), and its
propagate flag. -/
structure LoggerState where
  level : Nat
  handlers : List String
  propagate : Bool
deriving DecidableEq

/-- A freshly created logger: threshold NOTSET (0), no handlers,
propagation on. -/
def initialLoggerState : LoggerState := ⟨0, [], true⟩

/-- `os.path.join(tempfile.gettempdir(), \x27logged.log\x27)`, with the
platform temporary directory passed in as `tmpdir`. -/
def defaultLogFile (tmpdir : String) : String := tmpdir ++ "/logged.log"

/-- The destination the decorator's `FileHandler` points at: the explicit
`file` when given, otherwise the fixed temporary-directory file. -/
def logDestination (tmpdir : String) (file : Option String) : String :=
  match file with
  | none => defaultLogFile tmpdir
  | some f => f

/-- `AttributeError` raised by `getattr(logger, level.lower())` when the
lowered level string is not a method of the logger. -/
def loggerAttrError (level : String) : PyErr :=
  ⟨"AttributeError",
    "\x27Logger\x27 object has no attribute \x27" ++ (strLower level) ++ "\x27"⟩

/-- Decoration-time effect of `logged(file, level)` on the shared channel:
set the threshold from `getattr(logging, level.upper())` when `level` is
recognized and to INFO otherwise, turn off propagation, clear the handlers
and add one handler for the configured destination. -/
def logged_decorator (tmpdir : String) (file : Option String) (level : String)
    (st : LoggerState) : LoggerState :=
  let lvl := if level ∈ levelNames then (loggingLevelAttr (strUpper level)).getD 0 else 20
  let _ := st
  { level := lvl, handlers := [logDestination tmpdir file], propagate := false }

/-- Applying a sequence of `logged` decorations (each a `file, level` pair)
to the shared channel, in order. -/
def applyDecorations (tmpdir : String) (cfgs : List (Option String × String))
    (st : LoggerState) : LoggerState :=
  cfgs.foldl (fun s c => logged_decorator tmpdir c.1 c.2 s) st

/-- Emitting one record at `severity` on the channel: the list of
`(destination, line)` writes performed (one per handler when the severity
passes the channel threshold, none otherwise). -/
def logEmit (st : LoggerState) (severity : Nat) (line : String) : List (String × String) :=
  if st.level ≤ severity then st.handlers.map (fun d => (d, line)) else []

/-- The joined argument list of the log line: comma-separated `repr` of the
positional arguments followed by `name=repr(value)` for the keyword
arguments. -/
def callArgsString (args : List PyVal) (kwargs : List (String × PyVal)) : String :=
  String.intercalate ", "
    (args.map pyRepr ++ kwargs.map (fun p => p.1 ++ "=" ++ pyRepr p.2))

/-- The failure suffix of the log line, `str(type(exception))` followed by
the colon and the message. -/
def exceptionSuffix (e : PyErr) : String :=
  "<class \x27" ++ e.ty ++ "\x27>: " ++ e.msg

/-- Per-call behavior of a `logged`-wrapped `function`: build the call
description, invoke `function`; on return append the closing parenthesis
and the arrow to the result, on an exception append the exception suffix
(no closing parenthesis); then resolve the emission method from the level
string and emit, and pass the outcome (value or re-raised exception)
through. Returns the outcome together with the writes performed; when the
level string is not an emission method, the `AttributeError` from the
`getattr` replaces the outcome and nothing is written. -/
def logged_wrapper (st : LoggerState) (level : String) (name : String)
    (function : List PyVal → List (String × PyVal) → Except PyErr PyVal)
    (args : List PyVal) (kwargs : List (String × PyVal)) :
    Except PyErr PyVal × List (String × String) :=
  let log := "called: " ++ name ++ "(" ++ callArgsString args kwargs
  match function args kwargs with
  | .ok result =>
    match loggerMethodSeverity (strLower level) with
    | some sev => (.ok result, logEmit st sev (log ++ ") -> " ++ pyStr result))
    | none => (.error (loggerAttrError level), [])
  | .error e =>
    match loggerMethodSeverity (strLower level) with
    | some sev => (.error e, logEmit st sev (log ++ exceptionSuffix e))
    | none => (.error (loggerAttrError level), [])

/-! ## Signature Validator (`strictly_typed` in src/decorators.py)

Annotations (`function.__annotations__`) are an association list from
parameter names (plus the reserved key `return`) to types;
`arg_spec.args` and `arg_spec.kwonlyargs` are the declared positional and
keyword-only parameter names. Decoration asserts every slot is annotated;
the wrapper checks `zip(arg_spec.args, args) + kwargs.items()` and the
result against the annotations. -/

/-- `all_args` of the wrapper: the declared positional names zipped with
the given positional arguments, followed by the given keyword items. -/
def allArgs (specArgs : List String) (args : List PyVal)
    (kwargs : List (String × PyVal)) : List (String × PyVal) :=
  specArgs.zip args ++ kwargs

/-- The assertion message for an argument whose runtime type mismatches. -/
def argCheckError (name : String) (expected got : PyType) : PyErr :=
  ⟨"AssertionError",
    "expected argument \x22" ++ name ++ "\x22 of " ++ expected.reprStr
      ++ " got " ++ got.reprStr⟩

/-- The per-pair argument check loop of the wrapper: for each
`(name, arg)`, look the name up in the annotations (a missing key raises
`KeyError`) and assert `isinstance(arg, annotations[name])`. -/
def checkArgs (annotations : List (String × PyType)) :
    List (String × PyVal) → Except PyErr Unit
  | [] => .ok ()
  | (name, arg) :: rest =>
    match List.lookup name annotations with
    | none => .error ⟨"KeyError", "\x27" ++ name ++ "\x27"⟩
    | some t =>
      if isinstance arg t then checkArgs annotations rest
      else .error (argCheckError name t arg.typeOf)

/-- Call-time behavior of a `strictly_typed`-wrapped `function`: check the
arguments, invoke `function`, then assert the result is an instance of the
annotated return type. -/
def strictly_typed_wrapper (annotations : List (String × PyType))
    (specArgs : List String)
    (function : List PyVal → List (String × PyVal) → Except PyErr PyVal)
    (args : List PyVal) (kwargs : List (String × PyVal)) : Except PyErr PyVal :=
  match checkArgs annotations (allArgs specArgs args kwargs) with
  | .error e => .error e
  | .ok () =>
    match function args kwargs with
    | .error e => .error e
    | .ok result =>
      match List.lookup "return" annotations with
      | none => .error ⟨"KeyError", "\x27return\x27"⟩
      | some t =>
        if isinstance result t then .ok result
        else .error ⟨"AssertionError",
          "expected return of " ++ t.reprStr ++ " got " ++ result.typeOf.reprStr⟩

/-- The decoration-time loop asserting that every parameter name in
`arg_spec.args + arg_spec.kwonlyargs` has an annotation. -/
def checkAllAnnotated (annotations : List (String × PyType)) :
    List String → Except PyErr Unit
  | [] => .ok ()
  | a :: rest =>
    match List.lookup a annotations with
    | some _ => checkAllAnnotated annotations rest
    | none => .error ⟨"AssertionError",
        "missing type for parameter \x22" ++ a ++ "\x22"⟩

/-- The `strictly_typed` decorator: assert the return slot is annotated,
assert every positional and keyword-only parameter is annotated, and only
then produce the wrapper; a failed assertion means the function is never
wrapped. -/
def strictly_typed (annotations : List (String × PyType))
    (specArgs kwonlyargs : List String)
    (function : List PyVal → List (String × PyVal) → Except PyErr PyVal) :
    Except PyErr (List PyVal → List (String × PyVal) → Except PyErr PyVal) :=
  match List.lookup "return" annotations with
  | none => .error ⟨"AssertionError", "missing type for return value"⟩
  | some _ =>
    match checkAllAnnotated annotations (specArgs ++ kwonlyargs) with
    | .error e => .error e
    | .ok () => .ok (strictly_typed_wrapper annotations specArgs function)

/-! ## Coroutine Primer (`coroutine` in src/decorators.py)

A generator object is embedded by its observable behavior under `next`:
the values its remaining suspension points yield in order, and what happens
when the body runs past the last yield (`after = none` is a normal finish,
i.e. `StopIteration`; `some e` is an exception raised by the body, which
for a body failing before its first yield is the whole list being empty). -/

/-- A generator object: its remaining yielded values and the terminal
outcome after them. -/
structure PyGenerator where
  yields : List PyVal
  after : Option PyErr
deriving DecidableEq

/-- The `StopIteration` raised by `next` on an exhausted generator. -/
def stopIteration : PyErr := ⟨"StopIteration", ""⟩

/-- `next(g)`: the value yielded at the next suspension point together with
the advanced generator, or the terminal error. -/
def genNext (g : PyGenerator) : Except PyErr (PyVal × PyGenerator) :=
  match g.yields with
  | v :: rest => .ok (v, ⟨rest, g.after⟩)
  | [] => .error (g.after.getD stopIteration)

/-- The `coroutine` decorator applied to a generator-function: per call,
construct the generator from the arguments, advance it once with `next`
(discarding the yielded value), and return the primed generator; an error
from that single step propagates and no generator is returned. -/
def coroutine (function : List PyVal → List (String × PyVal) → PyGenerator)
    (args : List PyVal) (kwargs : List (String × PyVal)) :
    Except PyErr PyGenerator :=
  let generator := function args kwargs
  match genNext generator with
  | .ok (_, g) => .ok g
  | .error e => .error e

/-! ## Theorems -/

/-- C2: for `lo ≤ hi`, the clamped result lies in `[lo, hi]`; it equals the
wrapped function's result when that result is already in range, equals `lo`
when the result is below `lo`, and equals `hi` when the result is above
`hi`. -/
theorem bounded_clamps {α : Type} [LinearOrder α] {ι : Type}
    (lo hi : α) (f : ι → α) (x : ι) (h : lo ≤ hi) :
    lo ≤ bounded lo hi f x ∧ bounded lo hi f x ≤ hi ∧
    (lo ≤ f x → f x ≤ hi → bounded lo hi f x = f x) ∧
    (f x < lo → bounded lo hi f x = lo) ∧
    (hi < f x → bounded lo hi f x = hi) := by
  unfold bounded
  dsimp only
  split_ifs with h1 h2
  · exact ⟨le_refl lo, h, fun hlo _ => absurd h1 (not_lt.mpr hlo),
      fun _ => rfl, fun hhi => absurd (lt_trans (lt_of_le_of_lt h hhi) h1) (lt_irrefl lo)⟩
  · exact ⟨h, le_refl hi, fun _ hhi => absurd h2 (not_lt.mpr hhi),
      fun hlo => absurd h1 (fun _ => h1 hlo), fun _ => rfl⟩
  · exact ⟨not_lt.mp h1, not_lt.mp h2, fun _ _ => rfl,
      fun hlo => absurd hlo h1, fun hhi => absurd hhi h2⟩

/-- Witness for C2 at concrete inputs: `bounded 0 10` maps a function
returning 15 to 10, one returning -3 to 0, and one returning 5 to 5. -/
theorem bounded_clamps_witness :
    ((0 : Int) ≤ 10) ∧
    bounded (0 : Int) 10 (fun _ : Nat => (15 : Int)) 0 = 10 ∧
    bounded (0 : Int) 10 (fun _ : Nat => (-3 : Int)) 0 = 0 ∧
    bounded (0 : Int) 10 (fun _ : Nat => (5 : Int)) 0 = 5 := by
  refine ⟨by decide, ?_, ?_, ?_⟩
  · exact (bounded_clamps (0 : Int) 10 (fun _ : Nat => (15 : Int)) 0 (by decide)).2.2.2.2
      (by decide)
  · exact (bounded_clamps (0 : Int) 10 (fun _ : Nat => (-3 : Int)) 0 (by decide)).2.2.2.1
      (by decide)
  · exact (bounded_clamps (0 : Int) 10 (fun _ : Nat => (5 : Int)) 0 (by decide)).2.2.1
      (by decide) (by decide)

/-- For a level string that names an emission method whose severity passes
the channel threshold, the wrapper passes the outcome through and performs
one write per handler. -/
theorem logged_wrapper_emits (st : LoggerState) (level name : String)
    (f : List PyVal → List (String × PyVal) → Except PyErr PyVal)
    (args : List PyVal) (kwargs : List (String × PyVal)) (sev : Nat)
    (hm : loggerMethodSeverity (strLower level) = some sev)
    (hl : st.level ≤ sev) :
    logged_wrapper st level name f args kwargs =
      (f args kwargs, st.handlers.map (fun d =>
        (d, "called: " ++ name ++ "(" ++ callArgsString args kwargs ++
          (match f args kwargs with
           | .ok result => ") -> " ++ pyStr result
           | .error e => exceptionSuffix e)))) := by
  cases hf : f args kwargs with
  | ok v => simp [logged_wrapper, hf, hm, logEmit, hl, String.append_assoc]
  | error e => simp [logged_wrapper, hf, hm, logEmit, hl, String.append_assoc]

/-- The threshold a decoration leaves on the channel, by unfolding. -/
theorem logged_decorator_level (tmpdir : String) (file : Option String)
    (level : String) (st : LoggerState) :
    (logged_decorator tmpdir file level st).level
      = if level ∈ levelNames then (loggingLevelAttr (strUpper level)).getD 0
        else 20 := rfl

/-- The handler list a decoration leaves on the channel, by unfolding. -/
theorem logged_decorator_handlers (tmpdir : String) (file : Option String)
    (level : String) (st : LoggerState) :
    (logged_decorator tmpdir file level st).handlers
      = [logDestination tmpdir file] := rfl

/-- For each of the five recognized level names, the lowered level is an
emission method whose severity equals (hence passes) the threshold that
decoration set on the channel. -/
theorem valid_level_emits (tmpdir : String) (file : Option String)
    (level : String) (st : LoggerState) (h : level ∈ levelNames) :
    ∃ sev, loggerMethodSeverity (strLower level) = some sev ∧
      (logged_decorator tmpdir file level st).level ≤ sev := by
  fin_cases h
  · exact ⟨10, by decide, by rw [logged_decorator_level]; decide⟩
  · exact ⟨20, by decide, by rw [logged_decorator_level]; decide⟩
  · exact ⟨30, by decide, by rw [logged_decorator_level]; decide⟩
  · exact ⟨40, by decide, by rw [logged_decorator_level]; decide⟩
  · exact ⟨50, by decide, by rw [logged_decorator_level]; decide⟩

/-- C1: for every wrapped function and every valid level name, the wrapper
called on the channel state the decoration configured returns exactly the
wrapped function's outcome (the same value on a normal return, the
identical error re-raised on an exception), and appends exactly one line,
at the configured destination. -/
theorem logged_transparent (tmpdir : String) (file : Option String)
    (level name : String)
    (f : List PyVal → List (String × PyVal) → Except PyErr PyVal)
    (args : List PyVal) (kwargs : List (String × PyVal)) (st : LoggerState)
    (h : level ∈ levelNames) :
    (logged_wrapper (logged_decorator tmpdir file level st) level name f args kwargs).1
        = f args kwargs ∧
    (logged_wrapper (logged_decorator tmpdir file level st) level name f args
        kwargs).2.map Prod.fst = [logDestination tmpdir file] := by
  obtain ⟨sev, hm, hl⟩ := valid_level_emits tmpdir file level st h
  rw [logged_wrapper_emits _ _ _ _ _ _ _ hm hl]
  exact ⟨rfl, by rw [logged_decorator_handlers]; rfl⟩

/-- Witness for C1: a concrete decorated call returns the function's value
and writes one line to the default temporary-directory destination; a
concrete failing call re-raises the same error. -/
theorem logged_transparent_witness :
    ("debug" ∈ levelNames) ∧
    ((logged_wrapper (logged_decorator "/tmp" none "debug" initialLoggerState) "debug"
        "say_word" (fun _ _ => .ok (.vStr "hello")) [] []).1 = .ok (.vStr "hello")) ∧
    ((logged_wrapper (logged_decorator "/tmp" none "debug" initialLoggerState) "debug"
        "say_word" (fun _ _ => .ok (.vStr "hello")) [] []).2.map Prod.fst
      = ["/tmp/logged.log"]) ∧
    ((logged_wrapper (logged_decorator "/tmp" none "debug" initialLoggerState) "debug"
        "divide" (fun _ _ => .error ⟨"ZeroDivisionError", "division by zero"⟩) [] []).1
      = .error ⟨"ZeroDivisionError", "division by zero"⟩) := by
  have h1 := logged_transparent "/tmp" none "debug" "say_word"
      (fun _ _ => .ok (.vStr "hello")) [] [] initialLoggerState (by decide)
  have h2 := logged_transparent "/tmp" none "debug" "divide"
      (fun _ _ => .error ⟨"ZeroDivisionError", "division by zero"⟩) [] []
      initialLoggerState (by decide)
  exact ⟨by decide, h1.1, h1.2.trans (by decide), h2.1⟩

/-- C6: an unrecognized level string makes decoration fall back to the INFO
threshold (20), while each per-call emission still looks the literal level
string up as a logger method; when it is not one, the wrapper returns the
attribute-resolution error regardless of the wrapped function's own
outcome, and writes nothing. -/
theorem logged_invalid_level (tmpdir : String) (file : Option String)
    (level : String) (st st2 : LoggerState) (name : String)
    (f : List PyVal → List (String × PyVal) → Except PyErr PyVal)
    (args : List PyVal) (kwargs : List (String × PyVal))
    (h : level ∉ levelNames)
    (hm : loggerMethodSeverity (strLower level) = none) :
    (logged_decorator tmpdir file level st).level = 20 ∧
    logged_wrapper st2 level name f args kwargs
      = (.error (loggerAttrError level), []) := by
  constructor
  · simp [logged_decorator, h]
  · cases hf : f args kwargs with
    | ok v => simp [logged_wrapper, hf, hm]
    | error e => simp [logged_wrapper, hf, hm]

/-- Witness for C6 at the concrete invalid level string `verbose`. -/
theorem logged_invalid_level_witness :
    ("verbose" ∉ levelNames) ∧
    (loggerMethodSeverity (strLower "verbose") = none) ∧
    ((logged_decorator "/tmp" none "verbose" initialLoggerState).level = 20) ∧
    (logged_wrapper initialLoggerState "verbose" "say_word"
        (fun _ _ => .ok (.vStr "hello")) [] []
      = (.error (loggerAttrError "verbose"), [])) := by
  have h := logged_invalid_level "/tmp" none "verbose" initialLoggerState
      initialLoggerState "say_word" (fun _ _ => .ok (.vStr "hello")) [] []
      (by decide) (by decide)
  exact ⟨by decide, by decide, h.1, h.2⟩

/-- C7 counterexample: at a concrete failing call (function `divide` with no
arguments raising `ZeroDivisionError`), the single emitted line is the
argument list followed directly by the exception text, and it contains no
closing parenthesis at all, contradicting the claimed failure shape
`called: NAME(ARGS) ErrorType: message`. -/
theorem logged_failure_line_counterexample :
    ((logged_wrapper (logged_decorator "/tmp" none "debug" initialLoggerState) "debug"
        "divide" (fun _ _ => .error ⟨"ZeroDivisionError", "division by zero"⟩) [] []).2
      = [("/tmp/logged.log",
          "called: divide(<class \x27ZeroDivisionError\x27>: division by zero")]) ∧
    ("called: divide(<class \x27ZeroDivisionError\x27>: division by zero").data.contains
        (Char.ofNat 41) = false := by
  exact ⟨by decide, by decide⟩

/-- C7 (amended): on success the line is
`called: NAME(ARGS) -> str(result)`; on failure the exception suffix
`str(type(e))` plus colon and message is concatenated directly onto the
argument list, with no closing parenthesis and no delimiter. -/
theorem logged_line_shape (tmpdir : String) (file : Option String)
    (level name : String)
    (f : List PyVal → List (String × PyVal) → Except PyErr PyVal)
    (args : List PyVal) (kwargs : List (String × PyVal)) (st : LoggerState)
    (h : level ∈ levelNames) :
    (∀ v, f args kwargs = .ok v →
      (logged_wrapper (logged_decorator tmpdir file level st) level name f args kwargs).2
        = [(logDestination tmpdir file,
            "called: " ++ name ++ "(" ++ callArgsString args kwargs
              ++ ") -> " ++ pyStr v)]) ∧
    (∀ e, f args kwargs = .error e →
      (logged_wrapper (logged_decorator tmpdir file level st) level name f args kwargs).2
        = [(logDestination tmpdir file,
            "called: " ++ name ++ "(" ++ callArgsString args kwargs
              ++ "<class \x27" ++ e.ty ++ "\x27>: " ++ e.msg)]) := by
  obtain ⟨sev, hm, hl⟩ := valid_level_emits tmpdir file level st h
  rw [logged_wrapper_emits _ _ _ _ _ _ _ hm hl]
  constructor
  · intro v hf
    rw [hf, logged_decorator_handlers]
    simp [String.append_assoc]
  · intro e hf
    rw [hf, logged_decorator_handlers]
    simp [exceptionSuffix, String.append_assoc]

/-- Witness for C7's amended statement at concrete successful and failing
calls. -/
theorem logged_line_shape_witness :
    ("debug" ∈ levelNames) ∧
    ((logged_wrapper (logged_decorator "/tmp" none "debug" initialLoggerState) "debug"
        "say_word" (fun _ _ => .ok (.vStr "hello")) [.vInt 3] [("w", .vBool true)]).2
      = [("/tmp/logged.log", "called: say_word(3, w=True) -> hello")]) ∧
    ((logged_wrapper (logged_decorator "/tmp" none "debug" initialLoggerState) "debug"
        "divide" (fun _ _ => .error ⟨"ZeroDivisionError", "division by zero"⟩) [] []).2
      = [("/tmp/logged.log",
          "called: divide(<class \x27ZeroDivisionError\x27>: division by zero")]) := by
  have h1 := (logged_line_shape "/tmp" none "debug" "say_word"
      (fun _ _ => .ok (.vStr "hello")) [.vInt 3] [("w", .vBool true)]
      initialLoggerState (by decide)).1 (.vStr "hello") rfl
  have h2 := (logged_line_shape "/tmp" none "debug" "divide"
      (fun _ _ => .error ⟨"ZeroDivisionError", "division by zero"⟩) [] []
      initialLoggerState (by decide)).2 ⟨"ZeroDivisionError", "division by zero"⟩ rfl
  exact ⟨by decide, h1.trans (by decide), h2.trans (by decide)⟩

/-- C8: after any nonempty sequence of `logged` decorations on the shared
channel, the channel has exactly one handler, pointing at the destination
the last decoration configured, and an emission that passes the threshold
writes its line to that destination only. -/
theorem logged_last_configuration_wins (tmpdir : String) (st : LoggerState)
    (cfgs : List (Option String × String)) (h : cfgs ≠ []) :
    (applyDecorations tmpdir cfgs st).handlers
        = [logDestination tmpdir (cfgs.getLast h).1] ∧
    (applyDecorations tmpdir cfgs st).handlers.length = 1 ∧
    (∀ sev line, (applyDecorations tmpdir cfgs st).level ≤ sev →
      logEmit (applyDecorations tmpdir cfgs st) sev line
        = [(logDestination tmpdir (cfgs.getLast h).1, line)]) := by
  obtain ⟨l, a, rfl⟩ : ∃ l a, cfgs = l ++ [a] := by
    rcases List.eq_nil_or_concat cfgs with h0 | ⟨l, a, h0⟩
    · exact absurd h0 h
    · exact ⟨l, a, h0.trans (List.concat_eq_append l a)⟩
  have hfold : applyDecorations tmpdir (l ++ [a]) st
      = logged_decorator tmpdir a.1 a.2 (applyDecorations tmpdir l st) := by
    simp [applyDecorations, List.foldl_append]
  have hlast : (l ++ [a]).getLast h = a := List.getLast_append _
  rw [hfold, hlast]
  refine ⟨rfl, rfl, fun sev line hsev => ?_⟩
  simp only [logEmit, if_pos hsev]
  rfl

/-- Witness for C8: two successive decorations with different destinations
leave exactly the second destination as the only handler, and emission goes
there. -/
theorem logged_last_configuration_wins_witness :
    (([(some "a.log", "debug"), (some "b.log", "info")] :
        List (Option String × String)) ≠ []) ∧
    (applyDecorations "/tmp" [(some "a.log", "debug"), (some "b.log", "info")]
        initialLoggerState).handlers = ["b.log"] ∧
    logEmit (applyDecorations "/tmp" [(some "a.log", "debug"), (some "b.log", "info")]
        initialLoggerState) 20 "line" = [("b.log", "line")] := by
  have h := logged_last_configuration_wins "/tmp" initialLoggerState
      [(some "a.log", "debug"), (some "b.log", "info")] (by decide)
  exact ⟨by decide, h.1.trans (by decide),
    (h.2.2 20 "line" (by decide)).trans (by decide)⟩

/-- A prefix whose every pair is annotated and passes `isinstance` does not
affect the outcome of the argument-check loop. -/
theorem checkArgs_append_ok (annotations : List (String × PyType))
    (l1 l2 : List (String × PyVal))
    (h : ∀ p ∈ l1, ∃ t, List.lookup p.1 annotations = some t ∧
        isinstance p.2 t = true) :
    checkArgs annotations (l1 ++ l2) = checkArgs annotations l2 := by
  induction l1 with
  | nil => rfl
  | cons p rest ih =>
    obtain ⟨t, ht, hi⟩ := h p (List.mem_cons_self _ _)
    cases p with
    | mk name arg =>
      simp only [List.cons_append, checkArgs]
      rw [ht]
      simp only [hi, if_true]
      exact ih (fun q hq => h q (List.mem_cons_of_mem _ hq))

/-- The argument-check loop accepts a list whose every pair is annotated
and passes `isinstance`. -/
theorem checkArgs_ok_of_all (annotations : List (String × PyType))
    (l : List (String × PyVal))
    (h : ∀ p ∈ l, ∃ t, List.lookup p.1 annotations = some t ∧
        isinstance p.2 t = true) :
    checkArgs annotations l = .ok () := by
  have h0 := checkArgs_append_ok annotations l [] h
  simpa using h0

/-- If every pair is annotated and some pair fails `isinstance`, the
argument-check loop stops with an assertion error. -/
theorem checkArgs_fails (annotations : List (String × PyType))
    (l : List (String × PyVal))
    (hann : ∀ p ∈ l, (List.lookup p.1 annotations).isSome)
    (hfail : ∃ p ∈ l, ∃ t, List.lookup p.1 annotations = some t ∧
        isinstance p.2 t = false) :
    ∃ e, checkArgs annotations l = .error e ∧ e.ty = "AssertionError" := by
  induction l with
  | nil => simp at hfail
  | cons p rest ih =>
    cases p with
    | mk name arg =>
      cases hlk : List.lookup name annotations with
      | none =>
        have h0 := hann (name, arg) (List.mem_cons_self _ _)
        rw [hlk] at h0
        simp at h0
      | some t =>
        by_cases hi : isinstance arg t
        · have hrest : ∃ p ∈ rest, ∃ t, List.lookup p.1 annotations = some t ∧
              isinstance p.2 t = false := by
            rcases hfail with ⟨q, hq, tq, hlq, hiq⟩
            rcases List.mem_cons.mp hq with rfl | hq2
            · rw [hlk] at hlq
              injection hlq with h1
              subst h1
              rw [hi] at hiq
              cases hiq
            · exact ⟨q, hq2, tq, hlq, hiq⟩
          obtain ⟨e, he, hty⟩ := ih (fun q hq => hann q (List.mem_cons_of_mem _ hq)) hrest
          refine ⟨e, ?_, hty⟩
          simp only [checkArgs]
          rw [hlk]
          simp only [hi, if_true]
          exact he
        · refine ⟨argCheckError name t arg.typeOf, ?_, rfl⟩
          simp only [checkArgs]
          rw [hlk]
          simp [hi]

/-- C3: on a Signature-Validator-wrapped call whose checked pairs are all
annotated, an argument that is not an instance of its declared annotation
makes the wrapper return a descriptive assertion error that does not
depend on the wrapped function (so the function is never invoked); and
with all checked arguments of the correct declared types, the wrapper
returns exactly the unwrapped function's result, provided that result is
an instance of the declared return type. -/
theorem strictly_typed_call_check (annotations : List (String × PyType))
    (specArgs : List String)
    (f : List PyVal → List (String × PyVal) → Except PyErr PyVal)
    (args : List PyVal) (kwargs : List (String × PyVal))
    (hann : ∀ p ∈ allArgs specArgs args kwargs,
        (List.lookup p.1 annotations).isSome) :
    ((∃ p ∈ allArgs specArgs args kwargs, ∃ t,
        List.lookup p.1 annotations = some t ∧ isinstance p.2 t = false) →
      ∃ e, e.ty = "AssertionError" ∧ ∀ g,
        strictly_typed_wrapper annotations specArgs g args kwargs = .error e) ∧
    ((∀ p ∈ allArgs specArgs args kwargs, ∃ t,
        List.lookup p.1 annotations = some t ∧ isinstance p.2 t = true) →
      ∀ r rt, f args kwargs = .ok r →
        List.lookup "return" annotations = some rt → isinstance r rt = true →
        strictly_typed_wrapper annotations specArgs f args kwargs = .ok r) := by
  constructor
  · intro hfail
    obtain ⟨e, he, hty⟩ := checkArgs_fails annotations _ hann hfail
    exact ⟨e, hty, fun g => by simp [strictly_typed_wrapper, he]⟩
  · intro hpass r rt hf hrt hi
    have hok := checkArgs_ok_of_all annotations _ hpass
    simp [strictly_typed_wrapper, hok, hf, hrt, hi]

/-- Witness for C3: a concrete wrapped `add`-like function called with a
correct `int` argument returns its result unchanged. -/
theorem strictly_typed_call_check_witness :
    (∀ p ∈ allArgs ["a"] [PyVal.vInt 1] [],
      (List.lookup p.1 [("a", PyType.int), ("return", PyType.int)]).isSome) ∧
    (strictly_typed_wrapper [("a", PyType.int), ("return", PyType.int)] ["a"]
        (fun _ _ => .ok (.vInt 3)) [PyVal.vInt 1] [] = .ok (.vInt 3)) := by
  refine ⟨by decide, ?_⟩
  exact (strictly_typed_call_check [("a", PyType.int), ("return", PyType.int)] ["a"]
      (fun _ _ => .ok (.vInt 3)) [PyVal.vInt 1] [] (by decide)).2 (by decide)
    (.vInt 3) PyType.int rfl (by decide) (by decide)

/-- If some name in the list has no annotation, the decoration-time loop
stops with an assertion naming (the first) such name. -/
theorem checkAllAnnotated_fails (annotations : List (String × PyType))
    (l : List String) (h : ∃ a ∈ l, List.lookup a annotations = none) :
    ∃ a, a ∈ l ∧ List.lookup a annotations = none ∧
      checkAllAnnotated annotations l = .error ⟨"AssertionError",
        "missing type for parameter \x22" ++ a ++ "\x22"⟩ := by
  induction l with
  | nil => simp at h
  | cons b rest ih =>
    cases hlk : List.lookup b annotations with
    | some t =>
      have hrest : ∃ a ∈ rest, List.lookup a annotations = none := by
        rcases h with ⟨a, ha, hn⟩
        rcases List.mem_cons.mp ha with rfl | h2
        · rw [hlk] at hn
          cases hn
        · exact ⟨a, h2, hn⟩
      obtain ⟨a, ha, hn, he⟩ := ih hrest
      refine ⟨a, List.mem_cons_of_mem _ ha, hn, ?_⟩
      simp only [checkAllAnnotated]
      rw [hlk]
      exact he
    | none =>
      refine ⟨b, List.mem_cons_self _ _, hlk, ?_⟩
      simp only [checkAllAnnotated]
      rw [hlk]

/-- C4: decorating a function with a missing annotation on the return slot
or on any positional or keyword-only parameter fails at decoration time
with an assertion naming a genuinely missing slot, and no wrapper is
produced. -/
theorem strictly_typed_missing_annotation (annotations : List (String × PyType))
    (specArgs kwonlyargs : List String)
    (f : List PyVal → List (String × PyVal) → Except PyErr PyVal)
    (h : List.lookup "return" annotations = none ∨
        ∃ a ∈ specArgs ++ kwonlyargs, List.lookup a annotations = none) :
    ∃ e, strictly_typed annotations specArgs kwonlyargs f = .error e ∧
      e.ty = "AssertionError" ∧
      ((List.lookup "return" annotations = none ∧
          e.msg = "missing type for return value") ∨
       (∃ a, a ∈ specArgs ++ kwonlyargs ∧ List.lookup a annotations = none ∧
          e.msg = "missing type for parameter \x22" ++ a ++ "\x22")) := by
  cases hret : List.lookup "return" annotations with
  | none =>
    refine ⟨⟨"AssertionError", "missing type for return value"⟩, ?_, rfl,
      Or.inl ⟨rfl, rfl⟩⟩
    simp only [strictly_typed]
    rw [hret]
  | some t =>
    have hex : ∃ a ∈ specArgs ++ kwonlyargs, List.lookup a annotations = none := by
      rcases h with h | h
      · rw [hret] at h
        cases h
      · exact h
    obtain ⟨a, ha, hn, he⟩ := checkAllAnnotated_fails annotations _ hex
    refine ⟨⟨"AssertionError", "missing type for parameter \x22" ++ a ++ "\x22"⟩,
      ?_, rfl, Or.inr ⟨a, ha, hn, rfl⟩⟩
    simp only [strictly_typed]
    rw [hret, he]

/-- Witness for C4: a function annotated only on its parameter, not on its
return slot, fails decoration with the return-slot assertion. -/
theorem strictly_typed_missing_annotation_witness :
    (List.lookup "return" [("a", PyType.int)] = none) ∧
    (strictly_typed [("a", PyType.int)] ["a"] [] (fun _ _ => .ok (.vInt 0))
      = .error ⟨"AssertionError", "missing type for return value"⟩) := by
  obtain ⟨e, he, hty, hcase⟩ := strictly_typed_missing_annotation [("a", PyType.int)]
      ["a"] [] (fun _ _ => .ok (.vInt 0)) (Or.inl (by decide))
  refine ⟨by decide, ?_⟩
  rcases hcase with ⟨-, hmsg⟩ | ⟨a, ha, hn, -⟩
  · cases e with
    | mk ty msg =>
      dsimp at hty hmsg
      subst hty
      subst hmsg
      exact he
  · have ha1 : a = "a" := by
      have h2 : a ∈ (["a"] : List String) := by simpa using ha
      simpa using h2
    subst ha1
    exact absurd hn (by decide)

/-- Zipping ignores the part of the second list beyond the first list's
length. -/
theorem zip_append_of_le {α β : Type} (l1 : List α) (l2 l3 : List β)
    (h : l1.length ≤ l2.length) : l1.zip (l2 ++ l3) = l1.zip l2 := by
  induction l1 generalizing l2 with
  | nil => rfl
  | cons a as ih =>
    cases l2 with
    | nil => simp at h
    | cons b bs =>
      simp only [List.cons_append, List.zip_cons_cons]
      rw [ih bs (by simpa using h)]

/-- The first components of a zip are the first list truncated to the
second list's length. -/
theorem map_fst_zip_take {α β : Type} (l1 : List α) (l2 : List β) :
    (l1.zip l2).map Prod.fst = l1.take l2.length := by
  induction l1 generalizing l2 with
  | nil => simp
  | cons a as ih =>
    cases l2 with
    | nil => rfl
    | cons b bs =>
      simp only [List.zip_cons_cons, List.map_cons, List.length_cons, List.take_succ_cons]
      rw [ih bs]

/-- C9: the checked set of a Signature-Validator call is exactly the
declared positional names paired by position with the given positional
arguments, plus the given keyword items: surplus positional arguments
beyond the declared names never enter it, and the names it draws from the
declaration are only the first `args.length` ones, so a parameter left to
its default is never in it. -/
theorem strictly_typed_checked_set (specArgs : List String)
    (args extra : List PyVal) (kwargs : List (String × PyVal)) :
    (specArgs.length ≤ args.length →
      allArgs specArgs (args ++ extra) kwargs = allArgs specArgs args kwargs) ∧
    ((allArgs specArgs args kwargs).map Prod.fst
      = specArgs.take args.length ++ kwargs.map Prod.fst) := by
  constructor
  · intro h
    unfold allArgs
    rw [zip_append_of_le specArgs args extra h]
  · unfold allArgs
    rw [List.map_append, map_fst_zip_take]

/-- Witness for C9: a surplus positional argument does not change the
checked set, and with one positional argument given only the first of two
declared names is checked. -/
theorem strictly_typed_checked_set_witness :
    ((["a"] : List String).length ≤ ([PyVal.vInt 1] : List PyVal).length) ∧
    (allArgs ["a"] ([PyVal.vInt 1] ++ [PyVal.vStr "x"]) []
      = allArgs ["a"] [PyVal.vInt 1] []) ∧
    ((allArgs ["a", "b"] [PyVal.vInt 1] []).map Prod.fst = ["a"]) := by
  have h1 := strictly_typed_checked_set ["a"] [PyVal.vInt 1] [PyVal.vStr "x"] []
  have h2 := strictly_typed_checked_set ["a", "b"] [PyVal.vInt 1] [] []
  exact ⟨by decide, h1.1 (by decide), h2.2.trans (by decide)⟩

/-- C10: a keyword argument whose name has no entry in the annotation
mapping makes the wrapper fail with the key-lookup error (not the
descriptive type assertion), independently of the wrapped function, here
stated when the positional pairs all pass their checks and the offending
keyword item comes first. -/
theorem strictly_typed_unannotated_kwarg (annotations : List (String × PyType))
    (specArgs : List String) (args : List PyVal) (k : String) (v : PyVal)
    (rest : List (String × PyVal))
    (hpos : ∀ p ∈ specArgs.zip args, ∃ t, List.lookup p.1 annotations = some t ∧
        isinstance p.2 t = true)
    (hk : List.lookup k annotations = none) :
    ∀ f, strictly_typed_wrapper annotations specArgs f args ((k, v) :: rest)
      = .error ⟨"KeyError", "\x27" ++ k ++ "\x27"⟩ := by
  intro f
  have h1 : checkArgs annotations (allArgs specArgs args ((k, v) :: rest))
      = checkArgs annotations ((k, v) :: rest) :=
    checkArgs_append_ok annotations _ _ hpos
  have h2 : checkArgs annotations ((k, v) :: rest)
      = .error ⟨"KeyError", "\x27" ++ k ++ "\x27"⟩ := by
    simp only [checkArgs]
    rw [hk]
  simp [strictly_typed_wrapper, h1, h2]

/-- Witness for C10: a concrete call with the unannotated keyword `extra`
fails with `KeyError`, not an assertion, before the function is invoked. -/
theorem strictly_typed_unannotated_kwarg_witness :
    (∀ p ∈ (["a"].zip [PyVal.vInt 1] : List (String × PyVal)), ∃ t,
      List.lookup p.1 [("a", PyType.int), ("return", PyType.int)] = some t ∧
        isinstance p.2 t = true) ∧
    (List.lookup "extra" [("a", PyType.int), ("return", PyType.int)] = none) ∧
    (strictly_typed_wrapper [("a", PyType.int), ("return", PyType.int)] ["a"]
        (fun _ _ => .ok (.vInt 3)) [PyVal.vInt 1] [("extra", PyVal.vNone)]
      = .error ⟨"KeyError", "\x27extra\x27"⟩) := by
  refine ⟨by decide, by decide, ?_⟩
  exact strictly_typed_unannotated_kwarg [("a", PyType.int), ("return", PyType.int)]
      ["a"] [PyVal.vInt 1] "extra" PyVal.vNone [] (by decide) (by decide)
      (fun _ _ => .ok (.vInt 3))

/-- C5: the Coroutine Primer constructs the generator from the given
arguments and advances it exactly one step: when the body reaches a first
suspension point it returns the generator advanced past that point with
the value yielded there discarded, and when the single advancing step
raises (a body failing before yielding, or an exhausted/empty sequence,
which raises `StopIteration`) the error propagates and no generator is
returned. -/
theorem coroutine_primes
    (function : List PyVal → List (String × PyVal) → PyGenerator)
    (args : List PyVal) (kwargs : List (String × PyVal)) :
    (∀ v rest after, function args kwargs = ⟨v :: rest, after⟩ →
      coroutine function args kwargs = .ok ⟨rest, after⟩) ∧
    (∀ after, function args kwargs = ⟨[], after⟩ →
      coroutine function args kwargs = .error (after.getD stopIteration)) := by
  constructor
  · intro v rest after hf
    simp [coroutine, genNext, hf]
  · intro after hf
    simp [coroutine, genNext, hf]

/-- Witness for C5: a generator yielding 1 then 2 is returned primed past
the 1; a generator whose body fails before yielding propagates its error;
an empty generator propagates `StopIteration`. -/
theorem coroutine_primes_witness :
    ((fun _ _ => (⟨[PyVal.vInt 1, PyVal.vInt 2], none⟩ : PyGenerator))
        ([] : List PyVal) ([] : List (String × PyVal))
      = ⟨[PyVal.vInt 1, PyVal.vInt 2], none⟩) ∧
    (coroutine (fun _ _ => ⟨[PyVal.vInt 1, PyVal.vInt 2], none⟩) [] []
      = .ok ⟨[PyVal.vInt 2], none⟩) ∧
    (coroutine (fun _ _ => ⟨[], some ⟨"ValueError", "boom"⟩⟩) [] []
      = .error ⟨"ValueError", "boom"⟩) ∧
    (coroutine (fun _ _ => ⟨[], none⟩) [] [] = .error stopIteration) := by
  refine ⟨rfl, ?_, ?_, ?_⟩
  · exact (coroutine_primes (fun _ _ => ⟨[PyVal.vInt 1, PyVal.vInt 2], none⟩) [] []).1
      (PyVal.vInt 1) [PyVal.vInt 2] none rfl
  · exact ((coroutine_primes (fun _ _ => ⟨[], some ⟨"ValueError", "boom"⟩⟩) [] []).2
      (some ⟨"ValueError", "boom"⟩) rfl).trans rfl
  · exact ((coroutine_primes (fun _ _ => ⟨[], none⟩) [] []).2 none rfl).trans rfl
